import Mathlib

/-!
Verification development for the meme-sniper repository.

The JavaScript sources are shallowly embedded as Lean functions:

* `JsRegex` — a small backtracking matcher for the exact regular expressions the
  detector uses (literals, character classes, alternation, bounded greedy
  repetition, `\b` word boundaries, greedy star over a character class), with
  JavaScript `String.prototype.match(/re/g)` global-scan semantics
  (leftmost position, backtracking-priority match, non-overlapping).
* `AddressDetector` — `src/utils/addressDetector.js` (part_004).
* `BSCTokenBuyer` — `src/utils/bscTokenBuyer.js`; the on-chain world is an
  explicit environment record, and each call returns its result together with
  a trace of the external actions it performed, in order.
* `SolanaTokenBuyer` — `src/utils/solanaTokenBuyer.js` (part_000).
* `TwitterMonitor` — `src/utils/twitterMonitor.js`; the processed-tweet set is
  explicit state, and `checkForNewTweets` returns the evaluation order.
* `ProfitTracker` — `src/utils/profitTracker.js` (part_003).

JavaScript numbers are modelled as `ℚ`, `Math.floor` as `Int.floor`,
throwing calls as `Except String`-valued environment fields, and the
`new Date()` clock reads as an explicit `now : String` parameter.
-/

namespace JsRegex

/-- A character class: ranges plus individual members (JS `[...]`). -/
structure CharCls where
  ranges : List (Char × Char)
  singles : List Char
deriving DecidableEq

def CharCls.mem (cl : CharCls) (c : Char) : Bool :=
  cl.ranges.any (fun r => decide (r.1 ≤ c) && decide (c ≤ r.2)) || cl.singles.any (fun d => d == c)

/-- JS `\w` word character: `[A-Za-z0-9_]`. -/
def isWordChar (c : Char) : Bool :=
  c.isAlphanum || c == '_'

/-- Regular-expression syntax covering exactly the constructs the source uses.
`starCls` is greedy unbounded repetition of a one-character class (JS `[...]*`). -/
inductive RE where
  | eps
  | chr (c : Char)
  | cls (cl : CharCls)
  | seq (a b : RE)
  | alt (a b : RE)
  | wordB
  | starCls (cl : CharCls)
deriving DecidableEq

/-- `\b` holds between a word character and a non-word character (or text edge). -/
def boundaryAt (prev : Option Char) (rest : List Char) : Bool :=
  let pw := match prev with
    | none => false
    | some c => isWordChar c
  let nw := match rest with
    | [] => false
    | c :: _ => isWordChar c
  pw != nw

def charEq (ci : Bool) (p t : Char) : Bool :=
  if ci then p.toLower == t.toLower else p == t

/-- The character preceding the position after consuming `m` from a position
whose own predecessor was `prev`. -/
def newPrev (prev : Option Char) (m : List Char) : Option Char :=
  match m.getLast? with
  | some c => some c
  | none => prev

/-- All ways `re` can match a prefix of `l`, as `(consumed, rest)` pairs, in
backtracking priority order (first = what a JS engine commits to). `ci` is the
`i` flag; `prev` is the character just before `l`, for `\b`. -/
def reM (ci : Bool) : RE → Option Char → List Char → List (List Char × List Char)
  | .eps, _, l => [([], l)]
  | .chr c, _, l =>
    match l with
    | [] => []
    | t :: ts => if charEq ci c t then [([t], ts)] else []
  | .cls cl, _, l =>
    match l with
    | [] => []
    | t :: ts => if cl.mem t then [([t], ts)] else []
  | .wordB, prev, l => if boundaryAt prev l then [([], l)] else []
  | .seq a b, prev, l =>
    (reM ci a prev l).flatMap (fun p =>
      (reM ci b (newPrev prev p.1) p.2).map (fun q => (p.1 ++ q.1, q.2)))
  | .alt a b, prev, l => reM ci a prev l ++ reM ci b prev l
  | .starCls cl, _, l =>
    let run := l.takeWhile cl.mem
    ((List.range (run.length + 1)).reverse).map (fun k => (l.take k, l.drop k))

/-- Global scan (`/g` + `String.match`): walk left to right, at each position
commit to the first (highest-priority) match, skip over it, repeat. The fuel is
an upper bound on the number of steps; `length + 1` always suffices because
every step either consumes a character or ends the scan. -/
def scanFuel (ci : Bool) (re : RE) : Nat → Option Char → List Char → List (List Char)
  | 0, _, _ => []
  | _ + 1, _, [] => []
  | fuel + 1, prev, c :: cs =>
    match reM ci re prev (c :: cs) with
    | [] => scanFuel ci re fuel (some c) cs
    | (m, _) :: _ =>
      match m with
      | [] => scanFuel ci re fuel (some c) cs
      | _ :: _ => m :: scanFuel ci re fuel (newPrev prev m) ((c :: cs).drop m.length)

def scanAll (ci : Bool) (re : RE) (s : String) : List String :=
  (scanFuel ci re (s.toList.length + 1) none s.toList).map (fun m => String.mk m)

/-- Anchored test (`^...$` under `String.match` used only for truthiness). -/
def reTestFull (ci : Bool) (re : RE) (s : String) : Bool :=
  (reM ci re none s.toList).any (fun p => p.2.isEmpty)

/-- A literal string. -/
def lit (s : String) : RE :=
  s.toList.foldr (fun c acc => .seq (.chr c) acc) .eps

/-- Exactly `n` copies of `a` (the mandatory part of `{lo,hi}`). -/
def reqN (a : RE) : Nat → RE
  | 0 => .eps
  | n + 1 => .seq a (reqN a n)

/-- Up to `n` further copies of `a`, greedy (longer matches first). -/
def optChain (a : RE) : Nat → RE
  | 0 => .eps
  | n + 1 => .alt (.seq a (optChain a n)) .eps

/-- Greedy bounded repetition `a{lo,hi}`. -/
def repRange (a : RE) (lo hi : Nat) : RE :=
  .seq (reqN a lo) (optChain a (hi - lo))

/-- Greedy option `a?`. -/
def opt (a : RE) : RE :=
  .alt a .eps

end JsRegex

namespace AddressDetector

open JsRegex

/-- Base58 alphabet class `[1-9A-HJ-NP-Za-km-z]`. -/
def base58Cls : CharCls :=
  { ranges := [('1', '9'), ('A', 'H'), ('J', 'N'), ('P', 'Z'), ('a', 'k'), ('m', 'z')],
    singles := [] }

/-- Hex class `[a-fA-F0-9]`. -/
def hexCls : CharCls :=
  { ranges := [('a', 'f'), ('A', 'F'), ('0', '9')], singles := [] }

/-- `this.solanaRegex = /\b[1-9A-HJ-NP-Za-km-z]{32,44}\b/g`. -/
def solanaRegex : RE :=
  .seq .wordB (.seq (repRange (.cls base58Cls) 32 44) .wordB)

/-- `this.bscRegex = /\b0x[a-fA-F0-9]{40}\b/g`. -/
def bscRegex : RE :=
  .seq .wordB (.seq (lit ("0x")) (.seq (reqN (.cls hexCls) 40) .wordB))

/-- The anchored pattern `/^0x[a-fA-F0-9]{40}$/` shared by
`isValidBSCAddress` and `BSCTokenBuyer.buyToken`. -/
def bscAnchoredRegex : RE :=
  .seq (lit ("0x")) (reqN (.cls hexCls) 40)

/-- `/\bWORD\b/` for a literal vocabulary word. -/
def wordRe (w : String) : RE :=
  .seq .wordB (.seq (lit w) .wordB)

/-- Source pattern `/\launch\b/gi`: the `\l` escape is just the letter `l`,
so unlike the other entries this pattern has no leading `\b`. -/
def launchRe : RE :=
  .seq (lit ("launch")) .wordB

/-- `/\bSTEM(?:ing|ed)?\b/` — greedy optional suffix, alternatives in source
order (`ing`, then `ed`, then empty). -/
def stemRe (stem : String) : RE :=
  .seq .wordB (.seq (lit stem) (.seq (.alt (lit ("ing")) (.alt (lit ("ed")) .eps)) .wordB))

/-- `this.keywordPatterns`, in source order, each with its `i` flag. -/
def keywordPatterns : List (RE × Bool) :=
  [ (wordRe ("pump"), true),
    (launchRe, true),
    (wordRe ("token"), true),
    (wordRe ("contract"), true),
    (stemRe ("mint"), true),
    (stemRe ("deploy"), true),
    (wordRe ("live"), true),
    (wordRe ("CA"), false),
    (wordRe ("SOL"), false),
    (wordRe ("BSC"), false),
    (wordRe ("airdrop"), true),
    (wordRe ("presale"), true),
    (wordRe ("liquidity"), true),
    (wordRe ("DEX"), false) ]

/-- URL body class `[-a-zA-Z0-9@:%._\+~#=]`. -/
def urlBodyCls : CharCls :=
  { ranges := [('a', 'z'), ('A', 'Z'), ('0', '9')],
    singles := ['-', '@', ':', '%', '.', '_', '+', '~', '#', '='] }

/-- URL tld class `[a-zA-Z0-9()]`. -/
def urlTldCls : CharCls :=
  { ranges := [('a', 'z'), ('A', 'Z'), ('0', '9')], singles := ['(', ')'] }

/-- URL tail class `[-a-zA-Z0-9()@:%_\+.~#?&//=]`. -/
def urlTailCls : CharCls :=
  { ranges := [('a', 'z'), ('A', 'Z'), ('0', '9')],
    singles := ['-', '(', ')', '@', ':', '%', '_', '+', '.', '~', '#', '?', '&', '/', '='] }

/-- Alphanumeric class `[a-zA-Z0-9]`. -/
def alnumCls : CharCls :=
  { ranges := [('a', 'z'), ('A', 'Z'), ('0', '9')], singles := [] }

/-- `https?:\/\/(www\.)?[-a-zA-Z0-9@:%._\+~#=]{1,256}\.[a-zA-Z0-9()]{1,6}\b([-a-zA-Z0-9()@:%_\+.~#?&//=]*)`. -/
def urlRegex : RE :=
  .seq (lit ("http")) (.seq (opt (.chr 's')) (.seq (lit ("://"))
    (.seq (opt (lit ("www."))) (.seq (repRange (.cls urlBodyCls) 1 256)
      (.seq (.chr '.') (.seq (repRange (.cls urlTldCls) 1 6)
        (.seq .wordB (.starCls urlTailCls))))))))

/-- `https:\/\/t\.co\/[a-zA-Z0-9]+`. -/
def tcoRegex : RE :=
  .seq (lit ("https://t.co/")) (.seq (.cls alnumCls) (.starCls alnumCls))

/-- The bs58 alphabet, in value order. -/
def base58Alphabet : List Char :=
  ("123456789ABCDEFGHJKLMNPQRSTUVWXYZabcdefghijkmnopqrstuvwxyz").toList

def base58Digit (c : Char) : Option Nat :=
  let i := base58Alphabet.indexOf c
  if i < base58Alphabet.length then some i else none

/-- Big-endian base-58 value of the digit string; `none` on a foreign character
(where `bs58.decode` throws). -/
def base58ToNatAux : Nat → List Char → Option Nat
  | acc, [] => some acc
  | acc, c :: cs =>
    match base58Digit c with
    | none => none
    | some d => base58ToNatAux (acc * 58 + d) cs

/-- Leading `'1'` digits decode to leading zero bytes. -/
def countLeadingOnes : List Char → Nat
  | '1' :: cs => countLeadingOnes cs + 1
  | _ => 0

/-- Number of base-256 digits of `n` (`0` for `n = 0`); fuel-bounded, and any
fuel `≥ log₂₅₆ n + 1` gives the exact answer. -/
def byteLenAux : Nat → Nat → Nat
  | 0, _ => 0
  | f + 1, n => if n = 0 then 0 else byteLenAux f (n / 256) + 1

/-- Byte length of `bs58.decode s`, or `none` when decoding throws: the count
of leading `'1'` digits plus the minimal big-endian byte length of the value.
The digit count bounds the byte length, so it serves as fuel. -/
def bs58DecodedLen (s : String) : Option Nat :=
  let l := s.toList
  match base58ToNatAux 0 l with
  | none => none
  | some n => some (countLeadingOnes l + byteLenAux l.length n)

/-- `isValidSolanaAddress`: structural decode must produce exactly 32 bytes. -/
def isValidSolanaAddress (address : String) : Bool :=
  match bs58DecodedLen address with
  | some n => n == 32
  | none => false

/-- `isValidBSCAddress`: `/^0x[a-fA-F0-9]{40}$/` must match. -/
def isValidBSCAddress (address : String) : Bool :=
  reTestFull false bscAnchoredRegex address

/-- `extractSolanaAddresses`: pattern candidates filtered by the decode check. -/
def extractSolanaAddresses (text : String) : List String :=
  (scanAll false solanaRegex text).filter isValidSolanaAddress

/-- `extractBSCAddresses`. -/
def extractBSCAddresses (text : String) : List String :=
  (scanAll false bscRegex text).filter isValidBSCAddress

/-- First-occurrence deduplication, keeping already-kept elements in `seen`. -/
def dedupFirstAux (seen : List String) : List String → List String
  | [] => []
  | a :: l =>
    if seen.contains a then dedupFirstAux seen l
    else a :: dedupFirstAux (a :: seen) l

/-- First-occurrence deduplication (`[...new Set(xs)]`). -/
def dedupFirst (l : List String) : List String :=
  dedupFirstAux [] l

/-- `containsCryptoKeywords`: all matches of every pattern, deduplicated. -/
def containsCryptoKeywords (text : String) : List String :=
  dedupFirst (keywordPatterns.flatMap (fun p => scanAll p.2 p.1 text))

/-- `extractUrls`: http(s) URLs then t.co URLs, concatenated verbatim. -/
def extractUrls (text : String) : List String :=
  scanAll false urlRegex text ++ scanAll false tcoRegex text

/-- The object `analyzeTweet` returns. -/
structure Analysis where
  hasCryptoContent : Bool
  solanaAddresses : List String
  bscAddresses : List String
  keywords : List String
  urls : List String
  timestamp : String
deriving DecidableEq

/-- `analyzeTweet`; `now` is the value of `new Date().toISOString()` at the
call, made explicit. `hasCryptoContent` mirrors
`solanaAddresses.length > 0 || bscAddresses.length > 0 || keywords.length > 0`. -/
def analyzeTweet (now : String) (tweetText : String) : Analysis :=
  let solanaAddresses := extractSolanaAddresses tweetText
  let bscAddresses := extractBSCAddresses tweetText
  let keywords := containsCryptoKeywords tweetText
  let urls := extractUrls tweetText
  { hasCryptoContent :=
      decide (0 < solanaAddresses.length) || decide (0 < bscAddresses.length) ||
        decide (0 < keywords.length),
    solanaAddresses := solanaAddresses,
    bscAddresses := bscAddresses,
    keywords := keywords,
    urls := urls,
    timestamp := now }

end AddressDetector

/-- The normalized object the `buyToken` routines return. Transaction
hashes/signatures and token-balance read-backs are irrelevant to every claim
and are omitted from the record. -/
structure BuyResult where
  success : Bool
  error : Option String
  platform : Option String
  amount : Option ℤ
deriving DecidableEq

namespace BSCTokenBuyer

open AddressDetector

/-- The external world a BSC `buyToken` call can observe: wallet balance,
whether the ERC-20 metadata reads succeed (`getTokenInfo(...).exists`), and
one `Except`-valued field per throwing RPC interaction. -/
structure BscEnv where
  balance : ℚ
  tokenInfoOk : Bool
  isTokenLive : Except String Bool
  getTokenPrice : Except String ℚ
  getBuyQuote : Except String Nat
  getAmountsIn : Except String (List ℚ)
  fourMemeTx : Except String Bool
  pancakeTx : Except String Bool

/-- External actions of one `buyToken` call, in order. -/
inductive BscAction where
  | getBalance
  | getTokenInfo
  | probeFourMeme
  | probePancake
  | tradeFourMeme
  | tradePancake
deriving DecidableEq

structure FourMemeCheck where
  isAvailable : Bool
  price : Option ℚ
  testQuote : Option Nat
deriving DecidableEq

structure LiquidityCheck where
  hasLiquidity : Bool
  testQuote : Option ℚ
deriving DecidableEq

/-- `checkFourMeme`: `isTokenLive`, then price and quote reads; any thrown
error is caught and reported as `isAvailable: false`. -/
def checkFourMeme (env : BscEnv) : FourMemeCheck :=
  match env.isTokenLive with
  | .error _ => { isAvailable := false, price := none, testQuote := none }
  | .ok false => { isAvailable := false, price := none, testQuote := none }
  | .ok true =>
    match env.getTokenPrice, env.getBuyQuote with
    | .ok p, .ok q => { isAvailable := true, price := some p, testQuote := some q }
    | _, _ => { isAvailable := false, price := none, testQuote := none }

/-- `checkPancakeSwapLiquidity`: `getAmountsIn` quote; a thrown error is caught
and reported as `hasLiquidity: false`. The model reads the second quote entry
as an `Option` where the source formats `amounts[1]` directly. -/
def checkPancakeSwapLiquidity (env : BscEnv) : LiquidityCheck :=
  match env.getAmountsIn with
  | .error _ => { hasLiquidity := false, testQuote := none }
  | .ok amounts =>
    if 0 < amounts.length then { hasLiquidity := true, testQuote := amounts[1]? }
    else { hasLiquidity := false, testQuote := none }

/-- `buyOnFourMeme`: re-reads token info, then submits the transaction; a
thrown error or a failed receipt yields a failure result. -/
def buyOnFourMeme (env : BscEnv) (amountBNB : ℤ) : BuyResult :=
  if !env.tokenInfoOk then
    { success := false, error := some ("Token contract not found or invalid"),
      platform := none, amount := none }
  else
    match env.fourMemeTx with
    | .error e => { success := false, error := some e, platform := none, amount := none }
    | .ok true =>
      { success := true, error := none, platform := some ("Four.meme"), amount := some amountBNB }
    | .ok false =>
      { success := false, error := some ("Transaction failed"), platform := none, amount := none }

/-- `buyOnPancakeSwap`, same shape as `buyOnFourMeme`. -/
def buyOnPancakeSwap (env : BscEnv) (amountBNB : ℤ) : BuyResult :=
  if !env.tokenInfoOk then
    { success := false, error := some ("Token contract not found or invalid"),
      platform := none, amount := none }
  else
    match env.pancakeTx with
    | .error e => { success := false, error := some e, platform := none, amount := none }
    | .ok true =>
      { success := true, error := none, platform := some ("PancakeSwap"), amount := some amountBNB }
    | .ok false =>
      { success := false, error := some ("Transaction failed"), platform := none, amount := none }

/-- `BSCTokenBuyer.buyToken`: validate the address format, read the balance,
floor it to whole BNB, require at least 1, check the token contract, then try
Four.meme and fall back to PancakeSwap. The trace records the external actions
of this routine in order (the trade functions' internal re-reads are folded
into their trade action). -/
def buyToken (env : BscEnv) (tokenAddress : String) : BuyResult × List BscAction :=
  if !(isValidBSCAddress tokenAddress) then
    ({ success := false, error := some ("Invalid address format"), platform := none, amount := none },
     [])
  else if ⌊env.balance⌋ < 1 then
    ({ success := false, error := some ("Insufficient balance"), platform := none, amount := none },
     [.getBalance])
  else if !env.tokenInfoOk then
    ({ success := false, error := some ("Invalid token contract"), platform := none, amount := none },
     [.getBalance, .getTokenInfo])
  else if (checkFourMeme env).isAvailable then
    (buyOnFourMeme env ⌊env.balance⌋,
     [.getBalance, .getTokenInfo, .probeFourMeme, .tradeFourMeme])
  else if (checkPancakeSwapLiquidity env).hasLiquidity then
    (buyOnPancakeSwap env ⌊env.balance⌋,
     [.getBalance, .getTokenInfo, .probeFourMeme, .probePancake, .tradePancake])
  else
    ({ success := false, error := some ("Token not available on supported platforms"),
       platform := none, amount := none },
     [.getBalance, .getTokenInfo, .probeFourMeme, .probePancake])

end BSCTokenBuyer

namespace SolanaTokenBuyer

/-- Meteora pool kinds distinguished by `checkMeteora`. -/
inductive PoolType where
  | dlmm
  | dynamicAmm
deriving DecidableEq

/-- The external world a Solana `buyToken` call can observe. `pumpFunApi` and
`raydiumApi` are the HTTP probes (`Bool` = token found on an OK response);
`meteoraAccess` is the outer SDK call of `checkMeteora`, and `meteoraDlmm` /
`meteoraAmm` its two inner pool lookups. The `...Tx` fields are the trade
submissions. -/
structure SolEnv where
  balance : ℚ
  pumpFunApi : Except String Bool
  meteoraAccess : Except String Unit
  meteoraDlmm : Except String Bool
  meteoraAmm : Except String Bool
  raydiumApi : Except String Bool
  pumpFunTx : Except String Unit
  meteoraTx : Except String Unit
  raydiumTx : Except String Unit

/-- External actions of one Solana `buyToken` call, in order. -/
inductive SolAction where
  | getBalance
  | probePumpFun
  | probeMeteora
  | probeRaydium
  | tradePumpFun
  | tradeMeteora
  | tradeRaydium
deriving DecidableEq

/-- The `{ exists, poolType }` shape of the venue checks; `exists` is a Lean
keyword, so the field is named `tokenFound`. -/
structure VenueCheck where
  tokenFound : Bool
  poolType : Option PoolType
deriving DecidableEq

/-- `checkPumpFun`: HTTP probe; thrown errors are caught as `exists: false`. -/
def checkPumpFun (env : SolEnv) : VenueCheck :=
  match env.pumpFunApi with
  | .ok b => { tokenFound := b, poolType := none }
  | .error _ => { tokenFound := false, poolType := none }

/-- `checkRaydium`: pairs-list probe; thrown errors are caught as
`exists: false`. -/
def checkRaydium (env : SolEnv) : VenueCheck :=
  match env.raydiumApi with
  | .ok b => { tokenFound := b, poolType := none }
  | .error _ => { tokenFound := false, poolType := none }

/-- `checkMeteora`: the outer SDK access, then the DLMM lookup (inner errors
caught and treated as no pool), then the Dynamic AMM lookup. -/
def checkMeteora (env : SolEnv) : VenueCheck :=
  match env.meteoraAccess with
  | .error _ => { tokenFound := false, poolType := none }
  | .ok _ =>
    match env.meteoraDlmm with
    | .ok true => { tokenFound := true, poolType := some .dlmm }
    | _ =>
      match env.meteoraAmm with
      | .ok true => { tokenFound := true, poolType := some .dynamicAmm }
      | _ => { tokenFound := false, poolType := none }

/-- `buyOnPumpFun`: any throw along the transaction path yields a failure. -/
def buyOnPumpFun (env : SolEnv) (amountSOL : ℤ) : BuyResult :=
  match env.pumpFunTx with
  | .ok _ =>
    { success := true, error := none, platform := some ("Pump.fun"), amount := some amountSOL }
  | .error e => { success := false, error := some e, platform := none, amount := none }

/-- `buyOnRaydium`. -/
def buyOnRaydium (env : SolEnv) (amountSOL : ℤ) : BuyResult :=
  match env.raydiumTx with
  | .ok _ =>
    { success := true, error := none, platform := some ("Raydium"), amount := some amountSOL }
  | .error e => { success := false, error := some e, platform := none, amount := none }

/-- `buyOnMeteora`, with the platform label depending on the pool type. -/
def buyOnMeteora (env : SolEnv) (amountSOL : ℤ) (poolType : PoolType) : BuyResult :=
  match env.meteoraTx with
  | .ok _ =>
    { success := true, error := none,
      platform := some (match poolType with
        | .dlmm => ("Meteora DLMM")
        | .dynamicAmm => ("Meteora Dynamic AMM")),
      amount := some amountSOL }
  | .error e => { success := false, error := some e, platform := none, amount := none }

/-- `SolanaTokenBuyer.buyToken`: no address validation; read the balance,
floor it to whole SOL, require at least 1, then try Pump.fun, Meteora and
Raydium in that order. The address only selects the asset and is not
inspected, so the model result does not depend on it. -/
def buyToken (env : SolEnv) (_tokenAddress : String) : BuyResult × List SolAction :=
  if ⌊env.balance⌋ < 1 then
    ({ success := false, error := some ("Insufficient balance"), platform := none, amount := none },
     [.getBalance])
  else if (checkPumpFun env).tokenFound then
    (buyOnPumpFun env ⌊env.balance⌋, [.getBalance, .probePumpFun, .tradePumpFun])
  else if (checkMeteora env).tokenFound then
    (buyOnMeteora env ⌊env.balance⌋ ((checkMeteora env).poolType.getD .dlmm),
     [.getBalance, .probePumpFun, .probeMeteora, .tradeMeteora])
  else if (checkRaydium env).tokenFound then
    (buyOnRaydium env ⌊env.balance⌋,
     [.getBalance, .probePumpFun, .probeMeteora, .probeRaydium, .tradeRaydium])
  else
    ({ success := false, error := some ("Token not found on supported DEXs"),
       platform := none, amount := none },
     [.getBalance, .probePumpFun, .probeMeteora, .probeRaydium])

end SolanaTokenBuyer

namespace TwitterMonitor

open AddressDetector

/-- The fields of a fetched tweet the pipeline reads. -/
structure Tweet where
  id : String
  text : String
deriving DecidableEq

/-- `processTweet`: skip when the id is already in `processedTweets`, otherwise
insert it and classify; the alert (and optional auto-buy / webhook) fires
exactly when the returned value is `some`. State is the insertion-ordered
contents of the `processedTweets` set. -/
def processTweet (now : String) (processed : List String) (tweet : Tweet) :
    List String × Option Analysis :=
  if tweet.id ∈ processed then (processed, none)
  else
    let analysis := analyzeTweet now tweet.text
    if analysis.hasCryptoContent then (processed ++ [tweet.id], some analysis)
    else (processed ++ [tweet.id], none)

/-- The loop body of `checkForNewTweets` over an already-reversed batch:
returns the final state and the ids handed to `processTweet`, in evaluation
order. -/
def processFetched (now : String) : List String → List Tweet → List String × List String
  | processed, [] => (processed, [])
  | processed, tweet :: rest =>
    if tweet.id ∈ processed then processFetched now processed rest
    else
      let st := processTweet now processed tweet
      let res := processFetched now st.1 rest
      (res.1, tweet.id :: res.2)

/-- `checkForNewTweets`: the fetched batch arrives newest-first and is
processed in reverse (`tweets.reverse()`), oldest first. -/
def checkForNewTweets (now : String) (processed : List String) (tweets : List Tweet) :
    List String × List String :=
  processFetched now processed tweets.reverse

/-- `n` consecutive `processTweet` calls on the same tweet, counting the calls
that pass the dedup gate (and hence classify and may alert). -/
def processTimes (now : String) : List String → Tweet → Nat → List String × Nat
  | processed, _, 0 => (processed, 0)
  | processed, tweet, n + 1 =>
    let k : Nat := if tweet.id ∈ processed then 0 else 1
    let st := processTweet now processed tweet
    let res := processTimes now st.1 tweet n
    (res.1, k + res.2)

end TwitterMonitor

namespace ProfitTracker

/-- One tracked purchase (`this.purchasedTokens` entry); `amount` is the spent
native amount (the cost basis), `tokensReceived` the parsed token quantity. -/
structure Purchase where
  chain : String
  tokenAddress : String
  amount : ℚ
  tokensReceived : ℚ
  currentValue : ℚ
  profitLoss : ℚ
  profitPercentage : ℚ
deriving DecidableEq

/-- The price obtained for one purchase: `getSolanaTokenPrice` is the external
Jupiter query (`oracle`, `none` on failure), `getBSCTokenPrice` returns the
hard-coded mock `0.001`, and any other chain is never queried. -/
def currentPriceFor (oracle : String → Option ℚ) (p : Purchase) : Option ℚ :=
  if p.chain = ("solana") then oracle p.tokenAddress
  else if p.chain = ("bsc") then some (1 / 1000)
  else none

/-- The loop body of `updateProfitLoss` for one purchase. The source guard is
`if (currentPrice)`, JavaScript truthiness: both a `null` (failed query) and a
zero price leave the purchase unchanged. -/
def updatePurchase (oracle : String → Option ℚ) (p : Purchase) : Purchase :=
  match currentPriceFor oracle p with
  | none => p
  | some price =>
    if price = 0 then p
    else
      { p with
        currentValue := p.tokensReceived * price,
        profitLoss := p.tokensReceived * price - p.amount,
        profitPercentage := (p.tokensReceived * price - p.amount) / p.amount * 100 }

/-- `updateProfitLoss`: every tracked purchase is revalued independently. -/
def updateProfitLoss (oracle : String → Option ℚ) (purchases : List Purchase) : List Purchase :=
  purchases.map (updatePurchase oracle)

end ProfitTracker

section Helpers

/-- Sample well-formed BSC address (40 hex digits after `0x`). -/
def sampleBscAddr : String :=
  ("0x1234567890abcdef1234567890abcdef12345678")

theorem sampleBscAddr_valid : AddressDetector.isValidBSCAddress sampleBscAddr = true := by
  decide

theorem one_le_floor_two : (1 : ℤ) ≤ ⌊(2 : ℚ)⌋ := by
  norm_num

theorem floor_3710 : (⌊(37/10 : ℚ)⌋ : ℤ) = 3 := by
  norm_num

theorem floor_3710_ge : (1 : ℤ) ≤ ⌊(37/10 : ℚ)⌋ := by
  norm_num

theorem floor_910_lt : ⌊(9/10 : ℚ)⌋ < (1 : ℤ) := by
  norm_num

theorem buyOnFourMeme_amount (env : BSCTokenBuyer.BscEnv) (a : ℤ)
    (h : (BSCTokenBuyer.buyOnFourMeme env a).success = true) :
    (BSCTokenBuyer.buyOnFourMeme env a).amount = some a := by
  unfold BSCTokenBuyer.buyOnFourMeme at h ⊢
  cases ht : env.tokenInfoOk <;> simp [ht] at h ⊢
  cases htx : env.fourMemeTx with
  | error e => simp [htx] at h
  | ok b => cases b <;> simp [htx] at h ⊢

theorem buyOnPancakeSwap_amount (env : BSCTokenBuyer.BscEnv) (a : ℤ)
    (h : (BSCTokenBuyer.buyOnPancakeSwap env a).success = true) :
    (BSCTokenBuyer.buyOnPancakeSwap env a).amount = some a := by
  unfold BSCTokenBuyer.buyOnPancakeSwap at h ⊢
  cases ht : env.tokenInfoOk <;> simp [ht] at h ⊢
  cases htx : env.pancakeTx with
  | error e => simp [htx] at h
  | ok b => cases b <;> simp [htx] at h ⊢

theorem buyOnPumpFun_amount (env : SolanaTokenBuyer.SolEnv) (a : ℤ)
    (h : (SolanaTokenBuyer.buyOnPumpFun env a).success = true) :
    (SolanaTokenBuyer.buyOnPumpFun env a).amount = some a := by
  unfold SolanaTokenBuyer.buyOnPumpFun at h ⊢
  cases htx : env.pumpFunTx <;> simp [htx] at h ⊢

theorem buyOnRaydium_amount (env : SolanaTokenBuyer.SolEnv) (a : ℤ)
    (h : (SolanaTokenBuyer.buyOnRaydium env a).success = true) :
    (SolanaTokenBuyer.buyOnRaydium env a).amount = some a := by
  unfold SolanaTokenBuyer.buyOnRaydium at h ⊢
  cases htx : env.raydiumTx <;> simp [htx] at h ⊢

theorem buyOnMeteora_amount (env : SolanaTokenBuyer.SolEnv) (a : ℤ)
    (pt : SolanaTokenBuyer.PoolType)
    (h : (SolanaTokenBuyer.buyOnMeteora env a pt).success = true) :
    (SolanaTokenBuyer.buyOnMeteora env a pt).amount = some a := by
  unfold SolanaTokenBuyer.buyOnMeteora at h ⊢
  cases htx : env.meteoraTx <;> simp [htx] at h ⊢

end Helpers

/-- C1: for a chain-B (BSC) acquisition that reaches venue routing (address
well-formed, floored balance at least 1, token contract resolvable), the
venues are probed in the fixed order Four.meme then PancakeSwap and the trade
runs only on the first venue whose probe reports availability: an available
Four.meme is traded on with PancakeSwap never probed; an unavailable (or
erroring) Four.meme probe is followed by the PancakeSwap probe; and if neither
reports availability the call returns the not-available failure with no trade
action. The traces list all external actions in order. -/
theorem c1_bsc_venue_priority (env : BSCTokenBuyer.BscEnv) (addr : String)
    (hfmt : AddressDetector.isValidBSCAddress addr = true)
    (hbal : (1 : ℤ) ≤ ⌊env.balance⌋)
    (htok : env.tokenInfoOk = true) :
    ((BSCTokenBuyer.checkFourMeme env).isAvailable = true →
      BSCTokenBuyer.buyToken env addr =
        (BSCTokenBuyer.buyOnFourMeme env ⌊env.balance⌋,
         [.getBalance, .getTokenInfo, .probeFourMeme, .tradeFourMeme])) ∧
    ((BSCTokenBuyer.checkFourMeme env).isAvailable = false →
      (BSCTokenBuyer.checkPancakeSwapLiquidity env).hasLiquidity = true →
      BSCTokenBuyer.buyToken env addr =
        (BSCTokenBuyer.buyOnPancakeSwap env ⌊env.balance⌋,
         [.getBalance, .getTokenInfo, .probeFourMeme, .probePancake, .tradePancake])) ∧
    ((BSCTokenBuyer.checkFourMeme env).isAvailable = false →
      (BSCTokenBuyer.checkPancakeSwapLiquidity env).hasLiquidity = false →
      BSCTokenBuyer.buyToken env addr =
        ({ success := false, error := some ("Token not available on supported platforms"),
           platform := none, amount := none },
         [.getBalance, .getTokenInfo, .probeFourMeme, .probePancake])) := by
  refine ⟨fun hav => ?_, fun hav hliq => ?_, fun hav hliq => ?_⟩ <;>
    simp [BSCTokenBuyer.buyToken, hfmt, htok, hav, not_lt.mpr hbal, *]

/-- Concrete environment: Four.meme probe reports available, trade succeeds. -/
def envFourOk : BSCTokenBuyer.BscEnv :=
  { balance := 2, tokenInfoOk := true, isTokenLive := .ok true, getTokenPrice := .ok 1,
    getBuyQuote := .ok 5, getAmountsIn := .ok [], fourMemeTx := .ok true, pancakeTx := .ok true }

theorem c1_bsc_venue_priority_witness :
    BSCTokenBuyer.buyToken envFourOk sampleBscAddr =
      (BSCTokenBuyer.buyOnFourMeme envFourOk ⌊envFourOk.balance⌋,
       [.getBalance, .getTokenInfo, .probeFourMeme, .tradeFourMeme]) :=
  (c1_bsc_venue_priority envFourOk sampleBscAddr sampleBscAddr_valid one_le_floor_two rfl).1 rfl

/-- C2: once a probe has reported availability the trade is attempted there,
and a failing trade is returned as the call's result with no later venue
probed or traded on — shown for a failing Four.meme trade on BSC, and for
failing Pump.fun and Meteora trades on Solana. -/
theorem c2_trade_failure_short_circuit :
    (∀ (env : BSCTokenBuyer.BscEnv) (addr : String),
      AddressDetector.isValidBSCAddress addr = true → (1 : ℤ) ≤ ⌊env.balance⌋ →
      env.tokenInfoOk = true →
      (BSCTokenBuyer.checkFourMeme env).isAvailable = true →
      (BSCTokenBuyer.buyOnFourMeme env ⌊env.balance⌋).success = false →
      (BSCTokenBuyer.buyToken env addr).1 = BSCTokenBuyer.buyOnFourMeme env ⌊env.balance⌋ ∧
      (BSCTokenBuyer.buyToken env addr).1.success = false ∧
      BSCTokenBuyer.BscAction.probePancake ∉ (BSCTokenBuyer.buyToken env addr).2 ∧
      BSCTokenBuyer.BscAction.tradePancake ∉ (BSCTokenBuyer.buyToken env addr).2) ∧
    (∀ (env : SolanaTokenBuyer.SolEnv) (addr : String),
      (1 : ℤ) ≤ ⌊env.balance⌋ →
      (SolanaTokenBuyer.checkPumpFun env).tokenFound = true →
      (SolanaTokenBuyer.buyOnPumpFun env ⌊env.balance⌋).success = false →
      (SolanaTokenBuyer.buyToken env addr).1 = SolanaTokenBuyer.buyOnPumpFun env ⌊env.balance⌋ ∧
      (SolanaTokenBuyer.buyToken env addr).1.success = false ∧
      SolanaTokenBuyer.SolAction.probeMeteora ∉ (SolanaTokenBuyer.buyToken env addr).2 ∧
      SolanaTokenBuyer.SolAction.probeRaydium ∉ (SolanaTokenBuyer.buyToken env addr).2 ∧
      SolanaTokenBuyer.SolAction.tradeMeteora ∉ (SolanaTokenBuyer.buyToken env addr).2 ∧
      SolanaTokenBuyer.SolAction.tradeRaydium ∉ (SolanaTokenBuyer.buyToken env addr).2) ∧
    (∀ (env : SolanaTokenBuyer.SolEnv) (addr : String),
      (1 : ℤ) ≤ ⌊env.balance⌋ →
      (SolanaTokenBuyer.checkPumpFun env).tokenFound = false →
      (SolanaTokenBuyer.checkMeteora env).tokenFound = true →
      (SolanaTokenBuyer.buyToken env addr).1 =
        SolanaTokenBuyer.buyOnMeteora env ⌊env.balance⌋
          ((SolanaTokenBuyer.checkMeteora env).poolType.getD .dlmm) ∧
      SolanaTokenBuyer.SolAction.probeRaydium ∉ (SolanaTokenBuyer.buyToken env addr).2 ∧
      SolanaTokenBuyer.SolAction.tradeRaydium ∉ (SolanaTokenBuyer.buyToken env addr).2) := by
  refine ⟨fun env addr hfmt hbal htok hav hfail => ?_,
          fun env addr hbal hav hfail => ?_,
          fun env addr hbal hpf hav => ?_⟩ <;>
    simp [BSCTokenBuyer.buyToken, SolanaTokenBuyer.buyToken, not_lt.mpr hbal, *]

/-- Concrete environment: Four.meme available but its trade reverts. -/
def envFourFail : BSCTokenBuyer.BscEnv :=
  { balance := 2, tokenInfoOk := true, isTokenLive := .ok true, getTokenPrice := .ok 1,
    getBuyQuote := .ok 5, getAmountsIn := .ok [(1 : ℚ), 7],
    fourMemeTx := .error ("network error"), pancakeTx := .ok true }

theorem c2_trade_failure_short_circuit_witness :
    (BSCTokenBuyer.buyToken envFourFail sampleBscAddr).1 =
      BSCTokenBuyer.buyOnFourMeme envFourFail ⌊envFourFail.balance⌋ ∧
    (BSCTokenBuyer.buyToken envFourFail sampleBscAddr).1.success = false ∧
    BSCTokenBuyer.BscAction.probePancake ∉ (BSCTokenBuyer.buyToken envFourFail sampleBscAddr).2 ∧
    BSCTokenBuyer.BscAction.tradePancake ∉ (BSCTokenBuyer.buyToken envFourFail sampleBscAddr).2 :=
  c2_trade_failure_short_circuit.1 envFourFail sampleBscAddr sampleBscAddr_valid
    one_le_floor_two rfl rfl rfl

/-- Concrete environment with a 3.7 BNB balance and a working Four.meme. -/
def envBalance37 : BSCTokenBuyer.BscEnv :=
  { balance := 37/10, tokenInfoOk := true, isTokenLive := .ok true, getTokenPrice := .ok 1,
    getBuyQuote := .ok 5, getAmountsIn := .ok [], fourMemeTx := .ok true, pancakeTx := .ok true }

/-- C3: the spend amount of an acquisition is the integer floor of the wallet
balance at call time — a successful result always carries
`amount = some ⌊balance⌋`, a balance of 3.7 buys with exactly 3 — and a floored
balance below 1 fails immediately with the insufficient-balance error after
only the balance read, probing no venue, on both chains. -/
theorem c3_budget_floor_policy :
    (∀ (env : BSCTokenBuyer.BscEnv) (addr : String),
      AddressDetector.isValidBSCAddress addr = true → ⌊env.balance⌋ < (1 : ℤ) →
      BSCTokenBuyer.buyToken env addr =
        ({ success := false, error := some ("Insufficient balance"),
           platform := none, amount := none }, [.getBalance])) ∧
    (∀ (env : BSCTokenBuyer.BscEnv) (addr : String),
      (BSCTokenBuyer.buyToken env addr).1.success = true →
      (BSCTokenBuyer.buyToken env addr).1.amount = some ⌊env.balance⌋) ∧
    (∀ (env : SolanaTokenBuyer.SolEnv) (addr : String),
      ⌊env.balance⌋ < (1 : ℤ) →
      SolanaTokenBuyer.buyToken env addr =
        ({ success := false, error := some ("Insufficient balance"),
           platform := none, amount := none }, [.getBalance])) ∧
    (∀ (env : SolanaTokenBuyer.SolEnv) (addr : String),
      (SolanaTokenBuyer.buyToken env addr).1.success = true →
      (SolanaTokenBuyer.buyToken env addr).1.amount = some ⌊env.balance⌋) ∧
    ((BSCTokenBuyer.buyToken envBalance37 sampleBscAddr).1.success = true ∧
     (BSCTokenBuyer.buyToken envBalance37 sampleBscAddr).1.amount = some 3) := by
  refine ⟨fun env addr hfmt hbal => ?_, fun env addr h => ?_,
          fun env addr hbal => ?_, fun env addr h => ?_, ?_⟩
  · simp [BSCTokenBuyer.buyToken, hfmt, hbal]
  · cases h1 : AddressDetector.isValidBSCAddress addr with
    | false => simp [BSCTokenBuyer.buyToken, h1] at h
    | true =>
      by_cases h2 : ⌊env.balance⌋ < (1 : ℤ)
      · simp [BSCTokenBuyer.buyToken, h1, h2] at h
      · cases h3 : env.tokenInfoOk with
        | false => simp [BSCTokenBuyer.buyToken, h1, h2, h3] at h
        | true =>
          cases h4 : (BSCTokenBuyer.checkFourMeme env).isAvailable with
          | true =>
            simp only [BSCTokenBuyer.buyToken, h1, h2, h3, h4, Bool.not_true,
              Bool.false_eq_true, if_false, if_true, if_neg h2] at h ⊢
            exact buyOnFourMeme_amount env ⌊env.balance⌋ h
          | false =>
            cases h5 : (BSCTokenBuyer.checkPancakeSwapLiquidity env).hasLiquidity with
            | true =>
              simp only [BSCTokenBuyer.buyToken, h1, h2, h3, h4, h5, Bool.not_true,
                Bool.false_eq_true, if_false, if_true, if_neg h2] at h ⊢
              exact buyOnPancakeSwap_amount env ⌊env.balance⌋ h
            | false => simp [BSCTokenBuyer.buyToken, h1, h2, h3, h4, h5] at h
  · simp [SolanaTokenBuyer.buyToken, hbal]
  · by_cases h1 : ⌊env.balance⌋ < (1 : ℤ)
    · simp [SolanaTokenBuyer.buyToken, h1] at h
    · cases h2 : (SolanaTokenBuyer.checkPumpFun env).tokenFound with
      | true =>
        simp only [SolanaTokenBuyer.buyToken, h1, h2, if_true, if_neg h1] at h ⊢
        exact buyOnPumpFun_amount env ⌊env.balance⌋ h
      | false =>
        cases h3 : (SolanaTokenBuyer.checkMeteora env).tokenFound with
        | true =>
          simp only [SolanaTokenBuyer.buyToken, h1, h2, h3, Bool.false_eq_true,
            if_false, if_true, if_neg h1] at h ⊢
          exact buyOnMeteora_amount env ⌊env.balance⌋ _ h
        | false =>
          cases h4 : (SolanaTokenBuyer.checkRaydium env).tokenFound with
          | true =>
            simp only [SolanaTokenBuyer.buyToken, h1, h2, h3, h4, Bool.false_eq_true,
              if_false, if_true, if_neg h1] at h ⊢
            exact buyOnRaydium_amount env ⌊env.balance⌋ h
          | false => simp [SolanaTokenBuyer.buyToken, h1, h2, h3, h4] at h
  · constructor <;>
      simp [BSCTokenBuyer.buyToken, BSCTokenBuyer.checkFourMeme, BSCTokenBuyer.buyOnFourMeme,
        envBalance37, sampleBscAddr_valid, floor_3710]

/-- Concrete environment with a 0.9 BNB balance. -/
def envLowBalance : BSCTokenBuyer.BscEnv :=
  { balance := 9/10, tokenInfoOk := true, isTokenLive := .ok true, getTokenPrice := .ok 1,
    getBuyQuote := .ok 5, getAmountsIn := .ok [], fourMemeTx := .ok true, pancakeTx := .ok true }

theorem c3_budget_floor_policy_witness :
    BSCTokenBuyer.buyToken envLowBalance sampleBscAddr =
      ({ success := false, error := some ("Insufficient balance"),
         platform := none, amount := none }, [.getBalance]) :=
  c3_budget_floor_policy.1 envLowBalance sampleBscAddr sampleBscAddr_valid floor_910_lt

/-- C10: the BSC `buyToken` rejects any address that does not match
`/^0x[a-fA-F0-9]{40}$/` with the `Invalid address format` failure and an empty
action trace (so the balance is never read and no venue contacted), while the
Solana `buyToken` performs no format validation at all: its first action is
always the balance read and its behaviour does not depend on the address
string. -/
theorem c10_format_validation_asymmetry :
    (∀ (env : BSCTokenBuyer.BscEnv) (addr : String),
      AddressDetector.isValidBSCAddress addr = false →
      BSCTokenBuyer.buyToken env addr =
        ({ success := false, error := some ("Invalid address format"),
           platform := none, amount := none }, [])) ∧
    (∀ (env : SolanaTokenBuyer.SolEnv) (addr : String),
      (SolanaTokenBuyer.buyToken env addr).2.head? = some .getBalance) ∧
    (∀ (env : SolanaTokenBuyer.SolEnv) (a b : String),
      SolanaTokenBuyer.buyToken env a = SolanaTokenBuyer.buyToken env b) := by
  refine ⟨fun env addr h => ?_, fun env addr => ?_, fun env a b => rfl⟩
  · simp [BSCTokenBuyer.buyToken, h]
  · unfold SolanaTokenBuyer.buyToken
    split_ifs <;> rfl

theorem c10_format_validation_asymmetry_witness :
    BSCTokenBuyer.buyToken envFourOk ("not-an-address") =
      ({ success := false, error := some ("Invalid address format"),
         platform := none, amount := none }, []) :=
  c10_format_validation_asymmetry.1 envFourOk ("not-an-address") (by decide)

section MonitorHelpers

open TwitterMonitor

theorem processTweet_of_mem (now : String) (s : List String) (tw : Tweet)
    (h : tw.id ∈ s) : processTweet now s tw = (s, none) := by
  simp [processTweet, h]

theorem processTweet_fst_of_not_mem (now : String) (s : List String) (tw : Tweet)
    (h : tw.id ∉ s) : (processTweet now s tw).1 = s ++ [tw.id] := by
  by_cases hc : (AddressDetector.analyzeTweet now tw.text).hasCryptoContent <;>
    simp [processTweet, h, hc]

theorem processTweet_subset (now : String) (s : List String) (tw : Tweet) :
    s ⊆ (processTweet now s tw).1 := by
  by_cases h : tw.id ∈ s
  · rw [processTweet_of_mem now s tw h]
    exact fun x hx => hx
  · rw [processTweet_fst_of_not_mem now s tw h]
    exact List.subset_append_left s [tw.id]

theorem processFetched_subset (now : String) :
    ∀ (l : List Tweet) (s : List String), s ⊆ (processFetched now s l).1 := by
  intro l
  induction l with
  | nil => intro s; exact fun x hx => hx
  | cons tw rest ih =>
    intro s
    by_cases h : tw.id ∈ s
    · simpa [processFetched, h] using ih s
    · simp only [processFetched, h, if_false]
      exact (processTweet_subset now s tw).trans (ih (processTweet now s tw).1)

theorem processFetched_evaluation_order (now : String) :
    ∀ (l : List Tweet) (s : List String), (l.map Tweet.id).Nodup →
      (∀ tw ∈ l, tw.id ∉ s) → (processFetched now s l).2 = l.map Tweet.id := by
  intro l
  induction l with
  | nil => intro s _ _; rfl
  | cons tw rest ih =>
    intro s hnodup hfresh
    have htw : tw.id ∉ s := hfresh tw (List.mem_cons_self tw rest)
    have hnodup' : (rest.map Tweet.id).Nodup := (List.nodup_cons.mp hnodup).2
    have hhead : tw.id ∉ rest.map Tweet.id := (List.nodup_cons.mp hnodup).1
    have hfresh' : ∀ u ∈ rest, u.id ∉ (processTweet now s tw).1 := by
      intro u hu
      rw [processTweet_fst_of_not_mem now s tw htw]
      intro hmem
      rcases List.mem_append.mp hmem with hin | hone
      · exact hfresh u (List.mem_cons_of_mem tw hu) hin
      · exact hhead (by
          have : u.id = tw.id := List.mem_singleton.mp hone
          exact this ▸ List.mem_map_of_mem Tweet.id hu)
    simp only [processFetched, htw, if_false, List.map_cons]
    exact congrArg (tw.id :: ·) (ih (processTweet now s tw).1 hnodup' hfresh')

theorem processTimes_of_mem (now : String) (s : List String) (tw : Tweet)
    (h : tw.id ∈ s) : ∀ n, processTimes now s tw n = (s, 0) := by
  intro n
  induction n with
  | zero => rfl
  | succ m ih => simp [processTimes, h, processTweet_of_mem now s tw h, ih]

theorem mem_processTweet_fst (now : String) (s : List String) (tw : Tweet) :
    tw.id ∈ (processTweet now s tw).1 := by
  by_cases h : tw.id ∈ s
  · rw [processTweet_of_mem now s tw h]; exact h
  · rw [processTweet_fst_of_not_mem now s tw h]
    exact List.mem_append.mpr (Or.inr (List.mem_singleton.mpr rfl))

end MonitorHelpers

/-- C6: the dedup ledger only grows — a `processTweet` call and a whole
`checkForNewTweets` tick only ever extend the processed-id set — an id already
in the set is skipped outright (state unchanged, no classification, no alert),
and feeding the same tweet through `processTweet` any number `n ≥ 1` of times
passes the dedup gate (classifying, and alerting when signalled) exactly once
when the id was fresh and never when it was already recorded. -/
theorem c6_dedup_ledger_monotone_idempotent :
    (∀ (now : String) (s : List String) (tw : TwitterMonitor.Tweet),
      s ⊆ (TwitterMonitor.processTweet now s tw).1) ∧
    (∀ (now : String) (s : List String) (tweets : List TwitterMonitor.Tweet),
      s ⊆ (TwitterMonitor.checkForNewTweets now s tweets).1) ∧
    (∀ (now : String) (s : List String) (tw : TwitterMonitor.Tweet),
      tw.id ∈ s → TwitterMonitor.processTweet now s tw = (s, none)) ∧
    (∀ (now : String) (s : List String) (tw : TwitterMonitor.Tweet) (n : Nat),
      1 ≤ n →
      (TwitterMonitor.processTimes now s tw n).2 = if tw.id ∈ s then 0 else 1) := by
  refine ⟨processTweet_subset, fun now s tweets => processFetched_subset now tweets.reverse s,
          processTweet_of_mem, fun now s tw n hn => ?_⟩
  cases n with
  | zero => exact absurd hn (by decide)
  | succ m =>
    by_cases h : tw.id ∈ s
    · simp [TwitterMonitor.processTimes, h, processTweet_of_mem now s tw h,
        processTimes_of_mem now s tw h]
    · have hmem : tw.id ∈ (TwitterMonitor.processTweet now s tw).1 :=
        mem_processTweet_fst now s tw
      simp [TwitterMonitor.processTimes, h,
        processTimes_of_mem now (TwitterMonitor.processTweet now s tw).1 tw hmem]

theorem c6_dedup_ledger_monotone_idempotent_witness :
    (TwitterMonitor.processTimes ("now") [] { id := ("t1"), text := ("") } 2).2 =
      if ("t1") ∈ ([] : List String) then 0 else 1 :=
  c6_dedup_ledger_monotone_idempotent.2.2.2 ("now") [] { id := ("t1"), text := ("") } 2
    (by decide)

/-- C7: a scheduler tick processes the fetched batch in reverse, oldest-first
order — for any batch of new tweets with pairwise distinct ids, the ids handed
to `processTweet` are exactly the reversed fetch order, so a newest-first
fetch `[P3, P2, P1]` is evaluated `P1`, `P2`, `P3`. -/
theorem c7_tick_processes_oldest_first (now : String) (s : List String)
    (tweets : List TwitterMonitor.Tweet)
    (hnodup : (tweets.map TwitterMonitor.Tweet.id).Nodup)
    (hfresh : ∀ tw ∈ tweets, tw.id ∉ s) :
    (TwitterMonitor.checkForNewTweets now s tweets).2 =
      (tweets.reverse).map TwitterMonitor.Tweet.id := by
  refine processFetched_evaluation_order now tweets.reverse s ?_ ?_
  · rw [List.map_reverse, List.nodup_reverse]
    exact hnodup
  · intro tw htw
    exact hfresh tw (List.mem_reverse.mp htw)

theorem c7_tick_processes_oldest_first_witness :
    (TwitterMonitor.checkForNewTweets ("now") []
        [{ id := ("P3"), text := ("") }, { id := ("P2"), text := ("") },
         { id := ("P1"), text := ("") }]).2 = [("P1"), ("P2"), ("P3")] :=
  c7_tick_processes_oldest_first ("now") []
    [{ id := ("P3"), text := ("") }, { id := ("P2"), text := ("") },
     { id := ("P1"), text := ("") }] (by decide) (by decide)

/-- C4: the chain-A (Solana) extractor returns exactly the candidates of the
32–44-character base58 token pattern whose checksum-free `bs58` decode has
exactly 32 bytes; concretely, the pattern-shaped run of 44 `'1'`s decodes to
44 bytes and is excluded, while a real 43-character mint address is kept. -/
theorem c4_solana_extractor_requires_32_byte_decode :
    (∀ (text a : String),
      a ∈ AddressDetector.extractSolanaAddresses text ↔
        (a ∈ JsRegex.scanAll false AddressDetector.solanaRegex text ∧
         AddressDetector.bs58DecodedLen a = some 32)) ∧
    (JsRegex.scanAll false AddressDetector.solanaRegex (String.mk (List.replicate 44 '1')) =
       [String.mk (List.replicate 44 '1')] ∧
     AddressDetector.bs58DecodedLen (String.mk (List.replicate 44 '1')) = some 44 ∧
     AddressDetector.extractSolanaAddresses (String.mk (List.replicate 44 '1')) = []) ∧
    AddressDetector.extractSolanaAddresses ("CA: So11111111111111111111111111111111111111112") =
      [("So11111111111111111111111111111111111111112")] := by
  refine ⟨fun text a => ?_, by decide, by decide⟩
  simp only [AddressDetector.extractSolanaAddresses, List.mem_filter, and_congr_right_iff]
  intro _
  unfold AddressDetector.isValidSolanaAddress
  cases h : AddressDetector.bs58DecodedLen a with
  | none => simp [h]
  | some n => simp [h]

/-- C5: `hasCryptoContent` is true exactly when at least one Solana address,
BSC address, or keyword was found; a post consisting of a single link has a
nonempty `urls` field and still classifies with no signal. -/
theorem c5_hasSignal_iff_address_or_keyword :
    (∀ (now text : String),
      (AddressDetector.analyzeTweet now text).hasCryptoContent = true ↔
        ((AddressDetector.analyzeTweet now text).solanaAddresses ≠ [] ∨
         (AddressDetector.analyzeTweet now text).bscAddresses ≠ [] ∨
         (AddressDetector.analyzeTweet now text).keywords ≠ [])) ∧
    ((AddressDetector.analyzeTweet ("T") ("https://t.co/abc123")).urls ≠ [] ∧
     (AddressDetector.analyzeTweet ("T") ("https://t.co/abc123")).hasCryptoContent = false) := by
  refine ⟨fun now text => ?_, by decide⟩
  simp [AddressDetector.analyzeTweet, List.length_pos, or_assoc]

/-- C9 (counterexample): the classifier output is not a function of the post
text alone — the same empty text classified at two different clock readings
yields different `Finding` objects, because the result embeds
`new Date().toISOString()`. -/
theorem c9_same_text_different_results :
    AddressDetector.analyzeTweet ("2024-01-01T00:00:00.000Z") ("") ≠
      AddressDetector.analyzeTweet ("2024-01-01T00:00:01.000Z") ("") := by
  decide

/-- C9 (amended): apart from the embedded wall-clock `timestamp` field, the
classifier is a pure, deterministic function of the post text: all signal
fields of two calls on the same text agree regardless of the clock, and the
`timestamp` field is exactly the clock reading. -/
theorem c9_classifier_pure_up_to_timestamp :
    ∀ (t1 t2 text : String),
      (AddressDetector.analyzeTweet t1 text).hasCryptoContent =
        (AddressDetector.analyzeTweet t2 text).hasCryptoContent ∧
      (AddressDetector.analyzeTweet t1 text).solanaAddresses =
        (AddressDetector.analyzeTweet t2 text).solanaAddresses ∧
      (AddressDetector.analyzeTweet t1 text).bscAddresses =
        (AddressDetector.analyzeTweet t2 text).bscAddresses ∧
      (AddressDetector.analyzeTweet t1 text).keywords =
        (AddressDetector.analyzeTweet t2 text).keywords ∧
      (AddressDetector.analyzeTweet t1 text).urls =
        (AddressDetector.analyzeTweet t2 text).urls ∧
      (AddressDetector.analyzeTweet t1 text).timestamp = t1 :=
  fun _ _ _ => ⟨rfl, rfl, rfl, rfl, rfl, rfl⟩

/-- A tracked position whose stale values differ from any zero-price
recomputation: cost basis 1, quantity 1000, last-known value 5. -/
def zeroPricePurchase : ProfitTracker.Purchase :=
  { chain := ("solana"), tokenAddress := ("MintA"), amount := 1, tokensReceived := 1000,
    currentValue := 5, profitLoss := 4, profitPercentage := 400 }

/-- C8 (counterexample): a position whose price query succeeds with price `0`
is not recomputed — the source guard is JavaScript truthiness
(`if (currentPrice)`) — so its fields keep their stale values instead of the
claimed `quantityReceived × currentPrice` (which would be `0`, not `5`). -/
theorem c8_zero_price_skips_revaluation :
    ProfitTracker.updateProfitLoss (fun _ => some 0) [zeroPricePurchase] = [zeroPricePurchase] ∧
    zeroPricePurchase.currentValue ≠ zeroPricePurchase.tokensReceived * 0 := by
  constructor
  · simp [ProfitTracker.updateProfitLoss, ProfitTracker.updatePurchase,
      ProfitTracker.currentPriceFor, zeroPricePurchase]
  · simp only [zeroPricePurchase]
    norm_num

/-- A freshly tracked position matching the spec example: cost basis 1,
quantity 1000. -/
def revaluedPurchase : ProfitTracker.Purchase :=
  { chain := ("solana"), tokenAddress := ("MintB"), amount := 1, tokensReceived := 1000,
    currentValue := 0, profitLoss := 0, profitPercentage := 0 }

theorem q500_ne_zero : ((1 : ℚ)/500) ≠ 0 := by
  norm_num

/-- C8 (amended): on a revaluation tick every position is revalued
independently (elementwise map); a position whose price query fails — or
returns the price `0`, which the truthiness guard also skips — keeps its
last-known values, and a position whose query succeeds with a nonzero price is
recomputed as `currentValue = quantityReceived × price` and
`unrealizedPnl = currentValue − costBasis`; with quantity 1000, price 0.002
and cost basis 1 this gives value 2 and pnl 1. -/
theorem c8_revaluation_tick_amended :
    (∀ (oracle : String → Option ℚ) (ps : List ProfitTracker.Purchase) (i : Nat),
      (ProfitTracker.updateProfitLoss oracle ps)[i]? =
        (ps[i]?).map (ProfitTracker.updatePurchase oracle)) ∧
    (∀ (oracle : String → Option ℚ) (p : ProfitTracker.Purchase),
      ProfitTracker.currentPriceFor oracle p = none →
      ProfitTracker.updatePurchase oracle p = p) ∧
    (∀ (oracle : String → Option ℚ) (p : ProfitTracker.Purchase),
      ProfitTracker.currentPriceFor oracle p = some 0 →
      ProfitTracker.updatePurchase oracle p = p) ∧
    (∀ (oracle : String → Option ℚ) (p : ProfitTracker.Purchase) (pr : ℚ),
      ProfitTracker.currentPriceFor oracle p = some pr → pr ≠ 0 →
      (ProfitTracker.updatePurchase oracle p).currentValue = p.tokensReceived * pr ∧
      (ProfitTracker.updatePurchase oracle p).profitLoss = p.tokensReceived * pr - p.amount) ∧
    ((ProfitTracker.updatePurchase (fun _ => some (1/500)) revaluedPurchase).currentValue = 2 ∧
     (ProfitTracker.updatePurchase (fun _ => some (1/500)) revaluedPurchase).profitLoss = 1) := by
  refine ⟨fun oracle ps i => ?_, fun oracle p h => ?_, fun oracle p h => ?_,
          fun oracle p pr h hpr => ?_, ?_⟩
  · simp [ProfitTracker.updateProfitLoss]
  · simp [ProfitTracker.updatePurchase, h]
  · simp [ProfitTracker.updatePurchase, h]
  · simp [ProfitTracker.updatePurchase, h, hpr]
  · constructor <;>
      · simp [ProfitTracker.updatePurchase, ProfitTracker.currentPriceFor,
          revaluedPurchase, q500_ne_zero]
        norm_num

theorem c8_revaluation_tick_amended_witness :
    (ProfitTracker.updatePurchase (fun _ => some (1/500)) revaluedPurchase).currentValue =
      revaluedPurchase.tokensReceived * (1/500) ∧
    (ProfitTracker.updatePurchase (fun _ => some (1/500)) revaluedPurchase).profitLoss =
      revaluedPurchase.tokensReceived * (1/500) - revaluedPurchase.amount :=
  c8_revaluation_tick_amended.2.2.2.1 (fun _ => some (1/500)) revaluedPurchase (1/500)
    rfl q500_ne_zero
